import Mathlib

/-!
Verification of the aerodynamic coefficient generator storage/indexing core
(`Astrodynamics/ForceModels/aerodynamicCoefficientGenerator.h`).

The C++ class `tudat::AerodynamicCoefficientGenerator` keeps, per independent
variable (axis), a count of sample points and an array of sample values, plus
four role indices telling which axis holds Mach number, angle of attack, angle
of sideslip, and Reynolds number.  Raw pointers are embedded as `Option`
(`none` = `NULL`), `double` sample values as `ℚ` (the code only stores and
reloads them, no arithmetic), and C++ `int` as `Int`.  Unchecked C++ array
indexing becomes a guarded access returning `none` outside the bounds of the
allocated storage.
-/

namespace tudat

/-- Guarded read of a C++ array at a (possibly negative) `int` index:
`none` exactly when the index is outside the allocated range. -/
def intGet {α : Type} (l : List α) (i : Int) : Option α :=
  if 0 ≤ i then l.get? i.toNat else none

/-- Guarded write of a C++ array at a (possibly negative) `int` index:
`none` exactly when the index is outside the allocated range. -/
def intSet {α : Type} (l : List α) (i : Int) (v : α) : Option (List α) :=
  if 0 ≤ i ∧ i.toNat < l.length then some (l.set i.toNat v) else none

/-- State of a `tudat::AerodynamicCoefficientGenerator` object: the data
members declared in the header.  `vehicleCoefficients_` is an
`Eigen::VectorXd**` (array of pointers to coefficient vectors),
`dataPointsOfIndependentVariables_` a `double**` (array of per-axis sample
arrays); each pointer level is an `Option`. -/
structure AerodynamicCoefficientGenerator where
  vehicleCoefficients_ : Option (List (Option (List ℚ)))
  numberOfIndependentVariables_ : Int
  numberOfPointsPerIndependentVariables_ : Option (List Int)
  dataPointsOfIndependentVariables_ : Option (List (Option (List ℚ)))
  machIndex_ : Int
  angleOfAttackIndex_ : Int
  angleOfSideslipIndex_ : Int
  reynoldsNumberIndex_ : Int
  numberOfCases_ : Int
  deriving DecidableEq

/-- The default constructor: initializes the arrays to `NULL`, the number of
independent variables and of cases to 0, and each role index to `-0`. -/
def defaultConstructed : AerodynamicCoefficientGenerator :=
  { vehicleCoefficients_ := none
    numberOfIndependentVariables_ := 0
    numberOfPointsPerIndependentVariables_ := none
    dataPointsOfIndependentVariables_ := none
    machIndex_ := -0
    angleOfAttackIndex_ := -0
    angleOfSideslipIndex_ := -0
    reynoldsNumberIndex_ := -0
    numberOfCases_ := 0 }

/-- `int getNumberOfIndependentVariables( )`. -/
def getNumberOfIndependentVariables (s : AerodynamicCoefficientGenerator) : Int :=
  s.numberOfIndependentVariables_

/-- `int getNumberOfValuesOfIndependentVariable( int independentVariable )`:
reads `numberOfPointsPerIndependentVariables_[ independentVariable ]`. -/
def getNumberOfValuesOfIndependentVariable (s : AerodynamicCoefficientGenerator)
    (independentVariable : Int) : Option Int :=
  match s.numberOfPointsPerIndependentVariables_ with
  | none => none
  | some counts => intGet counts independentVariable

/-- `int getNumberOfMachPoints( )`: reads
`numberOfPointsPerIndependentVariables_[ machIndex_ ]`. -/
def getNumberOfMachPoints (s : AerodynamicCoefficientGenerator) : Option Int :=
  match s.numberOfPointsPerIndependentVariables_ with
  | none => none
  | some counts => intGet counts s.machIndex_

/-- `int getNumberOfAngleOfAttackPoints( )`: reads
`numberOfPointsPerIndependentVariables_[ angleOfAttackIndex_ ]`. -/
def getNumberOfAngleOfAttackPoints (s : AerodynamicCoefficientGenerator) : Option Int :=
  match s.numberOfPointsPerIndependentVariables_ with
  | none => none
  | some counts => intGet counts s.angleOfAttackIndex_

/-- `int getNumberOfAngleOfSideslipPoints( )`: reads
`numberOfPointsPerIndependentVariables_[ angleOfSideslipIndex_ ]`. -/
def getNumberOfAngleOfSideslipPoints (s : AerodynamicCoefficientGenerator) : Option Int :=
  match s.numberOfPointsPerIndependentVariables_ with
  | none => none
  | some counts => intGet counts s.angleOfSideslipIndex_

/-- `int getNumberOfReynoldsNumberPoints( )`: reads
`numberOfPointsPerIndependentVariables_[ reynoldsNumberIndex_ ]`. -/
def getNumberOfReynoldsNumberPoints (s : AerodynamicCoefficientGenerator) : Option Int :=
  match s.numberOfPointsPerIndependentVariables_ with
  | none => none
  | some counts => intGet counts s.reynoldsNumberIndex_

/-- `double getIndependentVariablePoint( int independentVariable, int index )`:
reads `dataPointsOfIndependentVariables_[ independentVariable ][ index ]`. -/
def getIndependentVariablePoint (s : AerodynamicCoefficientGenerator)
    (independentVariable index : Int) : Option ℚ :=
  match s.dataPointsOfIndependentVariables_ with
  | none => none
  | some outer =>
    match intGet outer independentVariable with
    | none => none
    | some none => none
    | some (some axis) => intGet axis index

/-- `double getMachPoint( int index )`: reads
`dataPointsOfIndependentVariables_[ machIndex_ ][ index ]`. -/
def getMachPoint (s : AerodynamicCoefficientGenerator) (index : Int) : Option ℚ :=
  match s.dataPointsOfIndependentVariables_ with
  | none => none
  | some outer =>
    match intGet outer s.machIndex_ with
    | none => none
    | some none => none
    | some (some axis) => intGet axis index

/-- `double getAngleOfAttackPoint( int index )`: reads
`dataPointsOfIndependentVariables_[ angleOfAttackIndex_ ][ index ]`. -/
def getAngleOfAttackPoint (s : AerodynamicCoefficientGenerator) (index : Int) : Option ℚ :=
  match s.dataPointsOfIndependentVariables_ with
  | none => none
  | some outer =>
    match intGet outer s.angleOfAttackIndex_ with
    | none => none
    | some none => none
    | some (some axis) => intGet axis index

/-- `double getAngleOfSideslipPoint( int index )`: reads
`dataPointsOfIndependentVariables_[ angleOfSideslipIndex_ ][ index ]`. -/
def getAngleOfSideslipPoint (s : AerodynamicCoefficientGenerator) (index : Int) : Option ℚ :=
  match s.dataPointsOfIndependentVariables_ with
  | none => none
  | some outer =>
    match intGet outer s.angleOfSideslipIndex_ with
    | none => none
    | some none => none
    | some (some axis) => intGet axis index

/-- `double getReynoldsNumberPoint( int index )`: reads
`dataPointsOfIndependentVariables_[ reynoldsNumberIndex_ ][ index ]`. -/
def getReynoldsNumberPoint (s : AerodynamicCoefficientGenerator) (index : Int) : Option ℚ :=
  match s.dataPointsOfIndependentVariables_ with
  | none => none
  | some outer =>
    match intGet outer s.reynoldsNumberIndex_ with
    | none => none
    | some none => none
    | some (some axis) => intGet axis index

/-- `void setMachPoint( int index, double machPoint )`.  The source body is
`dataPointsOfIndependentVariables_[ angleOfAttackIndex_ ][ index ] = machPoint;`
— it indexes the outer array with `angleOfAttackIndex_`, not `machIndex_`. -/
def setMachPoint (s : AerodynamicCoefficientGenerator) (index : Int) (machPoint : ℚ) :
    Option AerodynamicCoefficientGenerator :=
  match s.dataPointsOfIndependentVariables_ with
  | none => none
  | some outer =>
    match intGet outer s.angleOfAttackIndex_ with
    | none => none
    | some none => none
    | some (some axis) =>
      match intSet axis index machPoint with
      | none => none
      | some newAxis =>
        let newOuter := outer.set s.angleOfAttackIndex_.toNat (some newAxis)
        some { s with dataPointsOfIndependentVariables_ := some newOuter }

/-- `void setAngleOfAttackPoint( int index, double angleOfAttackPoint )`:
writes `dataPointsOfIndependentVariables_[ angleOfAttackIndex_ ][ index ]`. -/
def setAngleOfAttackPoint (s : AerodynamicCoefficientGenerator) (index : Int)
    (angleOfAttackPoint : ℚ) : Option AerodynamicCoefficientGenerator :=
  match s.dataPointsOfIndependentVariables_ with
  | none => none
  | some outer =>
    match intGet outer s.angleOfAttackIndex_ with
    | none => none
    | some none => none
    | some (some axis) =>
      match intSet axis index angleOfAttackPoint with
      | none => none
      | some newAxis =>
        let newOuter := outer.set s.angleOfAttackIndex_.toNat (some newAxis)
        some { s with dataPointsOfIndependentVariables_ := some newOuter }

/-- `void setAngleOfSideslipPoint( int index, double angleOfSideslipPoint )`:
writes `dataPointsOfIndependentVariables_[ angleOfSideslipIndex_ ][ index ]`. -/
def setAngleOfSideslipPoint (s : AerodynamicCoefficientGenerator) (index : Int)
    (angleOfSideslipPoint : ℚ) : Option AerodynamicCoefficientGenerator :=
  match s.dataPointsOfIndependentVariables_ with
  | none => none
  | some outer =>
    match intGet outer s.angleOfSideslipIndex_ with
    | none => none
    | some none => none
    | some (some axis) =>
      match intSet axis index angleOfSideslipPoint with
      | none => none
      | some newAxis =>
        let newOuter := outer.set s.angleOfSideslipIndex_.toNat (some newAxis)
        some { s with dataPointsOfIndependentVariables_ := some newOuter }

/-- `void setReynoldsNumberPoint( int index, double reynoldsNumberPoint )`:
writes `dataPointsOfIndependentVariables_[ reynoldsNumberIndex_ ][ index ]`. -/
def setReynoldsNumberPoint (s : AerodynamicCoefficientGenerator) (index : Int)
    (reynoldsNumberPoint : ℚ) : Option AerodynamicCoefficientGenerator :=
  match s.dataPointsOfIndependentVariables_ with
  | none => none
  | some outer =>
    match intGet outer s.reynoldsNumberIndex_ with
    | none => none
    | some none => none
    | some (some axis) =>
      match intSet axis index reynoldsNumberPoint with
      | none => none
      | some newAxis =>
        let newOuter := outer.set s.reynoldsNumberIndex_.toNat (some newAxis)
        some { s with dataPointsOfIndependentVariables_ := some newOuter }

/-- A generator configured with two axes: Mach on axis 0 (one sample, value 0)
and angle of attack on axis 1 (one sample, value 0). -/
def twoAxisExample : AerodynamicCoefficientGenerator :=
  { vehicleCoefficients_ := none
    numberOfIndependentVariables_ := 2
    numberOfPointsPerIndependentVariables_ := some [1, 1]
    dataPointsOfIndependentVariables_ := some [some [0], some [0]]
    machIndex_ := 0
    angleOfAttackIndex_ := 1
    angleOfSideslipIndex_ := 0
    reynoldsNumberIndex_ := 0
    numberOfCases_ := 0 }

/-- Claim C9: after default construction, `getNumberOfIndependentVariables`
returns 0, `numberOfCases_` is 0, the coefficient-table and per-axis storage
pointers are all null, and all four role indices equal 0, so all four
physical roles designate the same axis index 0. -/
theorem default_constructor_state :
    getNumberOfIndependentVariables defaultConstructed = 0 ∧
    defaultConstructed.numberOfCases_ = 0 ∧
    defaultConstructed.vehicleCoefficients_ = none ∧
    defaultConstructed.numberOfPointsPerIndependentVariables_ = none ∧
    defaultConstructed.dataPointsOfIndependentVariables_ = none ∧
    defaultConstructed.machIndex_ = 0 ∧
    defaultConstructed.angleOfAttackIndex_ = 0 ∧
    defaultConstructed.angleOfSideslipIndex_ = 0 ∧
    defaultConstructed.reynoldsNumberIndex_ = 0 ∧
    defaultConstructed.machIndex_ = defaultConstructed.angleOfAttackIndex_ ∧
    defaultConstructed.angleOfAttackIndex_ = defaultConstructed.angleOfSideslipIndex_ ∧
    defaultConstructed.angleOfSideslipIndex_ = defaultConstructed.reynoldsNumberIndex_ := by
  decide

/-- Claim C8: `setMachPoint` and `setAngleOfAttackPoint` are extensionally
equal: on every state, index and value they produce identical results, both
writing `dataPointsOfIndependentVariables_[ angleOfAttackIndex_ ][ index ]`. -/
theorem setMachPoint_eq_setAngleOfAttackPoint (s : AerodynamicCoefficientGenerator)
    (index : Int) (v : ℚ) :
    setMachPoint s index v = setAngleOfAttackPoint s index v := rfl

/-- Claim C4: each role-named getter is a pure pass-through to the generic
accessor at the role's assigned axis index, for points and for counts. -/
theorem role_wrappers_pass_through (s : AerodynamicCoefficientGenerator) (i : Int) :
    getMachPoint s i = getIndependentVariablePoint s s.machIndex_ i ∧
    getAngleOfAttackPoint s i = getIndependentVariablePoint s s.angleOfAttackIndex_ i ∧
    getAngleOfSideslipPoint s i = getIndependentVariablePoint s s.angleOfSideslipIndex_ i ∧
    getReynoldsNumberPoint s i = getIndependentVariablePoint s s.reynoldsNumberIndex_ i ∧
    getNumberOfMachPoints s = getNumberOfValuesOfIndependentVariable s s.machIndex_ ∧
    getNumberOfAngleOfAttackPoints s =
      getNumberOfValuesOfIndependentVariable s s.angleOfAttackIndex_ ∧
    getNumberOfAngleOfSideslipPoints s =
      getNumberOfValuesOfIndependentVariable s s.angleOfSideslipIndex_ ∧
    getNumberOfReynoldsNumberPoints s =
      getNumberOfValuesOfIndependentVariable s s.reynoldsNumberIndex_ :=
  ⟨rfl, rfl, rfl, rfl, rfl, rfl, rfl, rfl⟩

/-- Claim C1 (code bug, evaluated): in `twoAxisExample` the Mach role is on
axis 0 and the angle-of-attack role on axis 1, the Mach sample index 0 is in
range, yet `setMachPoint 0 5` leaves the Mach axis's stored sample unchanged
at 0 and instead overwrites the angle-of-attack axis's sample with 5. -/
theorem setMachPoint_targets_angleOfAttack_axis :
    twoAxisExample.machIndex_ ≠ twoAxisExample.angleOfAttackIndex_ ∧
    (setMachPoint twoAxisExample 0 5).bind (fun t => getMachPoint t 0) = some 0 ∧
    (setMachPoint twoAxisExample 0 5).bind (fun t => getAngleOfAttackPoint t 0) = some 5 := by
  decide

/-- Claim C2 (code bug, evaluated): in `twoAxisExample` the Mach axis is
allocated and index 0 is in range, yet after `setMachPoint 0 7` the call
`getMachPoint 0` returns the old value 0, not 7. -/
theorem setMachPoint_getMachPoint_roundtrip_fails :
    (setMachPoint twoAxisExample 0 7).bind (fun t => getMachPoint t 0) = some 0 ∧
    (0 : ℚ) ≠ 7 := by
  decide

/-- Method-call form of `getNumberOfIndependentVariables`: result paired with
the receiver state after the call.  The C++ body is a single `return` of a
data member, with no assignment. -/
def getNumberOfIndependentVariablesCall (s : AerodynamicCoefficientGenerator) :
    Int × AerodynamicCoefficientGenerator :=
  (getNumberOfIndependentVariables s, s)

/-- Method-call form of `getNumberOfValuesOfIndependentVariable`. -/
def getNumberOfValuesOfIndependentVariableCall (s : AerodynamicCoefficientGenerator)
    (independentVariable : Int) : Option Int × AerodynamicCoefficientGenerator :=
  (getNumberOfValuesOfIndependentVariable s independentVariable, s)

/-- Method-call form of `getNumberOfMachPoints`. -/
def getNumberOfMachPointsCall (s : AerodynamicCoefficientGenerator) :
    Option Int × AerodynamicCoefficientGenerator :=
  (getNumberOfMachPoints s, s)

/-- Method-call form of `getNumberOfAngleOfAttackPoints`. -/
def getNumberOfAngleOfAttackPointsCall (s : AerodynamicCoefficientGenerator) :
    Option Int × AerodynamicCoefficientGenerator :=
  (getNumberOfAngleOfAttackPoints s, s)

/-- Method-call form of `getNumberOfAngleOfSideslipPoints`. -/
def getNumberOfAngleOfSideslipPointsCall (s : AerodynamicCoefficientGenerator) :
    Option Int × AerodynamicCoefficientGenerator :=
  (getNumberOfAngleOfSideslipPoints s, s)

/-- Method-call form of `getNumberOfReynoldsNumberPoints`. -/
def getNumberOfReynoldsNumberPointsCall (s : AerodynamicCoefficientGenerator) :
    Option Int × AerodynamicCoefficientGenerator :=
  (getNumberOfReynoldsNumberPoints s, s)

/-- Method-call form of `getIndependentVariablePoint`. -/
def getIndependentVariablePointCall (s : AerodynamicCoefficientGenerator)
    (independentVariable index : Int) : Option ℚ × AerodynamicCoefficientGenerator :=
  (getIndependentVariablePoint s independentVariable index, s)

/-- Method-call form of `getMachPoint`. -/
def getMachPointCall (s : AerodynamicCoefficientGenerator) (index : Int) :
    Option ℚ × AerodynamicCoefficientGenerator :=
  (getMachPoint s index, s)

/-- Method-call form of `getAngleOfAttackPoint`. -/
def getAngleOfAttackPointCall (s : AerodynamicCoefficientGenerator) (index : Int) :
    Option ℚ × AerodynamicCoefficientGenerator :=
  (getAngleOfAttackPoint s index, s)

/-- Method-call form of `getAngleOfSideslipPoint`. -/
def getAngleOfSideslipPointCall (s : AerodynamicCoefficientGenerator) (index : Int) :
    Option ℚ × AerodynamicCoefficientGenerator :=
  (getAngleOfSideslipPoint s index, s)

/-- Method-call form of `getReynoldsNumberPoint`. -/
def getReynoldsNumberPointCall (s : AerodynamicCoefficientGenerator) (index : Int) :
    Option ℚ × AerodynamicCoefficientGenerator :=
  (getReynoldsNumberPoint s index, s)

/-- Claim C10: every getter of the class leaves the entire generator state
unchanged: for every state and arguments, the state after the call equals the
state before. -/
theorem getters_preserve_state (s : AerodynamicCoefficientGenerator) (iv i : Int) :
    (getNumberOfIndependentVariablesCall s).2 = s ∧
    (getNumberOfValuesOfIndependentVariableCall s iv).2 = s ∧
    (getNumberOfMachPointsCall s).2 = s ∧
    (getNumberOfAngleOfAttackPointsCall s).2 = s ∧
    (getNumberOfAngleOfSideslipPointsCall s).2 = s ∧
    (getNumberOfReynoldsNumberPointsCall s).2 = s ∧
    (getIndependentVariablePointCall s iv i).2 = s ∧
    (getMachPointCall s i).2 = s ∧
    (getAngleOfAttackPointCall s i).2 = s ∧
    (getAngleOfSideslipPointCall s i).2 = s ∧
    (getReynoldsNumberPointCall s i).2 = s :=
  ⟨rfl, rfl, rfl, rfl, rfl, rfl, rfl, rfl, rfl, rfl, rfl⟩

/-- Modelled from the spec: the body of `setNumberOfIndependentVariables` is
not under `src/` (the header only declares it).  Per §4.1 it declares how many
independent-variable axes exist, and per the data model the generator then
owns per-axis bookkeeping arrays of that length; freshly allocated C++ storage
is modelled with placeholder entries (count 0, null axis pointer). -/
def setNumberOfIndependentVariables (s : AerodynamicCoefficientGenerator)
    (numberOfVariables : Int) : AerodynamicCoefficientGenerator :=
  { s with numberOfIndependentVariables_ := numberOfVariables
           numberOfPointsPerIndependentVariables_ := some (List.replicate numberOfVariables.toNat 0)
           dataPointsOfIndependentVariables_ := some (List.replicate numberOfVariables.toNat none) }

/-- A reachable state: default construction followed by declaring one axis.
No role index was ever assigned, so all four roles still hold the
constructor's value. -/
def configuredOneAxis : AerodynamicCoefficientGenerator :=
  setNumberOfIndependentVariables defaultConstructed 1

/-- Claim C6 counterexample: in the reachable state `configuredOneAxis` the
never-assigned Reynolds-number role holds 0, which lies in
`[0, variableCount)`: the stored value is itself a valid axis index, not a
sentinel distinguishable from every valid axis index. -/
theorem unassigned_role_aliases_axis_zero :
    configuredOneAxis.reynoldsNumberIndex_ = 0 ∧
    0 ≤ configuredOneAxis.reynoldsNumberIndex_ ∧
    configuredOneAxis.reynoldsNumberIndex_ < configuredOneAxis.numberOfIndependentVariables_ := by
  decide

/-- Claim C6 (amended): the constructor initializes all four role indices with
the literal `-0`, which equals 0 and is not a distinguishable sentinel: for
every declared variable count n ≥ 1, a never-assigned role's stored index 0
is itself a valid axis index (it aliases axis 0).  Distinguishability holds
only in states with variable count 0. -/
theorem role_indices_initialized_zero (n : Int) (hn : 1 ≤ n) :
    defaultConstructed.machIndex_ = 0 ∧
    defaultConstructed.angleOfAttackIndex_ = 0 ∧
    defaultConstructed.angleOfSideslipIndex_ = 0 ∧
    defaultConstructed.reynoldsNumberIndex_ = 0 ∧
    0 ≤ (setNumberOfIndependentVariables defaultConstructed n).reynoldsNumberIndex_ ∧
    (setNumberOfIndependentVariables defaultConstructed n).reynoldsNumberIndex_ <
      (setNumberOfIndependentVariables defaultConstructed n).numberOfIndependentVariables_ := by
  refine ⟨rfl, rfl, rfl, rfl, ?_, ?_⟩ <;>
    simp only [setNumberOfIndependentVariables, defaultConstructed] <;> omega

/-- Witness for the amended claim C6 at variable count 1. -/
theorem role_indices_initialized_zero_witness :
    defaultConstructed.machIndex_ = 0 ∧
    defaultConstructed.angleOfAttackIndex_ = 0 ∧
    defaultConstructed.angleOfSideslipIndex_ = 0 ∧
    defaultConstructed.reynoldsNumberIndex_ = 0 ∧
    0 ≤ (setNumberOfIndependentVariables defaultConstructed 1).reynoldsNumberIndex_ ∧
    (setNumberOfIndependentVariables defaultConstructed 1).reynoldsNumberIndex_ <
      (setNumberOfIndependentVariables defaultConstructed 1).numberOfIndependentVariables_ :=
  role_indices_initialized_zero 1 (by decide)

/-- Modelled from the spec: the code that sizes and allocates the coefficient
table (`vehicleCoefficients_` and `numberOfCases_`) lives in derived classes
and a translation unit not under `src/`.  Per §4.4, allocation computes N as
the product of all current axis sample counts and allocates N coefficient
slots, all initially unpopulated (null), discarding any previous contents;
it requires the per-axis counts to have been sized. -/
def allocateCoefficientTable (s : AerodynamicCoefficientGenerator) :
    Option AerodynamicCoefficientGenerator :=
  match s.numberOfPointsPerIndependentVariables_ with
  | none => none
  | some counts =>
    if 0 ≤ s.numberOfIndependentVariables_ ∧
        counts.length = s.numberOfIndependentVariables_.toNat then
      some { s with numberOfCases_ := counts.prod
                    vehicleCoefficients_ := some (List.replicate counts.prod.toNat none) }
    else none

/-- Claim C7: whenever the coefficient table is allocated, `numberOfCases_`
equals the product of the per-axis sample counts taken at allocation time
(which allocation leaves unchanged), and the table has exactly that many
slots, all unpopulated. -/
theorem allocate_table_size_eq_product (s t : AerodynamicCoefficientGenerator)
    (h : allocateCoefficientTable s = some t) :
    ∃ counts, s.numberOfPointsPerIndependentVariables_ = some counts ∧
      t.numberOfPointsPerIndependentVariables_ = some counts ∧
      t.numberOfCases_ = counts.prod ∧
      t.vehicleCoefficients_ = some (List.replicate counts.prod.toNat none) := by
  unfold allocateCoefficientTable at h
  split at h
  · exact absurd h (by simp)
  · rename_i counts hc
    split at h
    · cases h
      exact ⟨counts, hc, hc, rfl, rfl⟩
    · exact absurd h (by simp)

/-- A generator sized with two axes of 3 and 4 sample points. -/
def gridExample : AerodynamicCoefficientGenerator :=
  { vehicleCoefficients_ := none
    numberOfIndependentVariables_ := 2
    numberOfPointsPerIndependentVariables_ := some [3, 4]
    dataPointsOfIndependentVariables_ := some [some [1, 2, 3], some [4, 5, 6, 7]]
    machIndex_ := 0
    angleOfAttackIndex_ := 1
    angleOfSideslipIndex_ := 0
    reynoldsNumberIndex_ := 0
    numberOfCases_ := 0 }

/-- `gridExample` after table allocation: 3 * 4 = 12 unpopulated slots. -/
def allocatedExample : AerodynamicCoefficientGenerator :=
  { gridExample with numberOfCases_ := 12
                     vehicleCoefficients_ := some (List.replicate 12 none) }

/-- Witness for claim C7 on the 3-by-4 grid. -/
theorem allocate_table_size_eq_product_witness :
    ∃ counts, gridExample.numberOfPointsPerIndependentVariables_ = some counts ∧
      allocatedExample.numberOfPointsPerIndependentVariables_ = some counts ∧
      allocatedExample.numberOfCases_ = counts.prod ∧
      allocatedExample.vehicleCoefficients_ = some (List.replicate counts.prod.toNat none) :=
  allocate_table_size_eq_product gridExample allocatedExample (by decide)

/-- Modelled from the spec: the body of `variableIndicesToListIndex` is not
under `src/` (the header only declares it).  Per §4.3 the Index Mapper uses a
mixed-radix positional encoding with axis 0 varying slowest: the stride of an
axis is the product of the sample counts of the faster-varying axes after it,
and the flat offset is the sum over all axes of index times stride. -/
def variableIndicesToListIndex : List Nat → List Nat → Nat
  | _ :: cs, i :: is => i * cs.prod + variableIndicesToListIndex cs is
  | _, _ => 0

/-- An index tuple is valid for a list of per-axis sample counts when it has
one entry per axis and each entry is below that axis's count. -/
def validIndices : List Nat → List Nat → Bool
  | [], [] => true
  | c :: cs, i :: is => decide (i < c) && validIndices cs is
  | _, _ => false

/-- Range part of the Index Mapper bijection: a valid tuple's flat offset is
below the product of the counts. -/
theorem variableIndicesToListIndex_lt (counts : List Nat) :
    ∀ is, validIndices counts is = true →
      variableIndicesToListIndex counts is < counts.prod := by
  induction counts with
  | nil =>
    intro is h
    cases is with
    | nil => simp [variableIndicesToListIndex]
    | cons i is => simp [validIndices] at h
  | cons c cs ih =>
    intro is h
    cases is with
    | nil => simp [validIndices] at h
    | cons i is =>
      simp only [validIndices, Bool.and_eq_true, decide_eq_true_eq] at h
      obtain ⟨hi, hv⟩ := h
      have hrec := ih is hv
      simp only [variableIndicesToListIndex, List.prod_cons]
      calc i * cs.prod + variableIndicesToListIndex cs is
          < i * cs.prod + cs.prod := by omega
        _ = (i + 1) * cs.prod := by ring
        _ ≤ c * cs.prod := Nat.mul_le_mul_right _ hi

/-- Uniqueness of a mixed-radix digit and remainder. -/
theorem mixedRadix_digit_eq (P i j r s : Nat) (hr : r < P) (hs : s < P)
    (h : i * P + r = j * P + s) : i = j ∧ r = s := by
  have hP : 0 < P := by omega
  have hdiv : ∀ a b : Nat, a < P → (a + b * P) / P = b := by
    intro a b ha
    rw [Nat.add_mul_div_right _ _ hP, Nat.div_eq_of_lt ha, Nat.zero_add]
  have hmod : ∀ a b : Nat, a < P → (a + b * P) % P = a := by
    intro a b ha
    rw [Nat.add_mul_mod_self_right, Nat.mod_eq_of_lt ha]
  have h9 : r + i * P = s + j * P := by omega
  constructor
  · have := congrArg (fun x => x / P) h9
    simpa [hdiv r i hr, hdiv s j hs] using this
  · have := congrArg (fun x => x % P) h9
    simpa [hmod r i hr, hmod s j hs] using this

/-- Injectivity part of the Index Mapper bijection. -/
theorem variableIndicesToListIndex_injOn (counts : List Nat) :
    ∀ is js, validIndices counts is = true → validIndices counts js = true →
      variableIndicesToListIndex counts is = variableIndicesToListIndex counts js →
      is = js := by
  induction counts with
  | nil =>
    intro is js hi hj _
    cases is <;> cases js <;> simp_all [validIndices]
  | cons c cs ih =>
    intro is js hi hj heq
    cases is with
    | nil => simp [validIndices] at hi
    | cons i is =>
      cases js with
      | nil => simp [validIndices] at hj
      | cons j js =>
        simp only [validIndices, Bool.and_eq_true, decide_eq_true_eq] at hi hj
        obtain ⟨hic, hiv⟩ := hi
        obtain ⟨hjc, hjv⟩ := hj
        simp only [variableIndicesToListIndex] at heq
        have hri := variableIndicesToListIndex_lt cs is hiv
        have hrj := variableIndicesToListIndex_lt cs js hjv
        obtain ⟨h1, h2⟩ := mixedRadix_digit_eq cs.prod i j _ _ hri hrj heq
        rw [h1, ih is js hiv hjv h2]

/-- Surjectivity part of the Index Mapper bijection. -/
theorem variableIndicesToListIndex_surjOn (counts : List Nat) :
    ∀ n, n < counts.prod → ∃ is, validIndices counts is = true ∧
      variableIndicesToListIndex counts is = n := by
  induction counts with
  | nil =>
    intro n hn
    simp only [List.prod_nil] at hn
    have h0 : n = 0 := by omega
    subst h0
    exact ⟨[], rfl, rfl⟩
  | cons c cs ih =>
    intro n hn
    simp only [List.prod_cons] at hn
    have hP : 0 < cs.prod := by
      rcases Nat.eq_zero_or_pos cs.prod with h | h
      · rw [h, Nat.mul_zero] at hn; omega
      · exact h
    obtain ⟨is, hv, hval⟩ := ih (n % cs.prod) (Nat.mod_lt _ hP)
    refine ⟨n / cs.prod :: is, ?_, ?_⟩
    · simp only [validIndices, Bool.and_eq_true, decide_eq_true_eq]
      refine ⟨Nat.div_lt_of_lt_mul ?_, hv⟩
      rw [Nat.mul_comm]
      exact hn
    · simp only [variableIndicesToListIndex]
      rw [hval, Nat.mul_comm]
      exact Nat.div_add_mod n cs.prod

/-- Claim C3: for per-axis sample counts `c_0, ..., c_(m-1)`, all at least 1,
`variableIndicesToListIndex` is a bijection between the Cartesian product of
the index ranges `[0, c_k)` and the flat offset range `[0, product of all
c_k)`: every valid tuple maps below the product, no two distinct valid tuples
map to the same offset, and every offset in range is produced by a valid
tuple. -/
theorem variableIndicesToListIndex_bijection (counts : List Nat)
    (hc : ∀ c ∈ counts, 1 ≤ c) :
    (∀ is, validIndices counts is = true →
        variableIndicesToListIndex counts is < counts.prod) ∧
    (∀ is js, validIndices counts is = true → validIndices counts js = true →
        variableIndicesToListIndex counts is = variableIndicesToListIndex counts js →
        is = js) ∧
    (∀ n, n < counts.prod → ∃ is, validIndices counts is = true ∧
        variableIndicesToListIndex counts is = n) :=
  ⟨variableIndicesToListIndex_lt counts, variableIndicesToListIndex_injOn counts,
   variableIndicesToListIndex_surjOn counts⟩

/-- Witness for claim C3 on the 3-by-4 grid of the spec's concrete scenario:
tuple (1, 2) maps below 12, and offset 6 is reached by some valid tuple. -/
theorem variableIndicesToListIndex_bijection_witness :
    variableIndicesToListIndex [3, 4] [1, 2] < List.prod [3, 4] ∧
    (∃ is, validIndices [3, 4] is = true ∧ variableIndicesToListIndex [3, 4] is = 6) :=
  ⟨(variableIndicesToListIndex_bijection [3, 4] (by decide)).1 [1, 2] (by decide),
   (variableIndicesToListIndex_bijection [3, 4] (by decide)).2.2 6 (by decide)⟩

/-- `intGet` fails outside the allocated range. -/
theorem intGet_eq_none {α : Type} (l : List α) (i : Int)
    (h : ¬ (0 ≤ i ∧ i.toNat < l.length)) : intGet l i = none := by
  unfold intGet
  by_cases h0 : 0 ≤ i
  · rw [if_pos h0]
    rw [List.get?_eq_getElem?, List.getElem?_eq_none]
    omega
  · rw [if_neg h0]

/-- `intGet` at a nonnegative index is a plain list lookup. -/
theorem intGet_eq_get? {α : Type} (l : List α) (i : Int) (h : 0 ≤ i) :
    intGet l i = l.get? i.toNat := by
  unfold intGet
  rw [if_pos h]

/-- `intGet` succeeds exactly on the allocated range. -/
theorem intGet_isSome {α : Type} (l : List α) (i : Int) :
    (intGet l i).isSome = true ↔ 0 ≤ i ∧ i.toNat < l.length := by
  constructor
  · intro h
    by_contra hc
    rw [intGet_eq_none l i hc] at h
    simp at h
  · rintro ⟨h0, hlt⟩
    rw [intGet_eq_get? l i h0, List.get?_eq_get hlt]
    simp

/-- `intSet` succeeds exactly on the allocated range. -/
theorem intSet_isSome {α : Type} (l : List α) (i : Int) (v : α) :
    (intSet l i v).isSome = true ↔ 0 ≤ i ∧ i.toNat < l.length := by
  unfold intSet
  by_cases h : 0 ≤ i ∧ i.toNat < l.length
  · simp [h]
  · simp [h]

/-- Per-axis storage matches the bookkeeping: every axis pointer is allocated
and each axis's sample array has exactly the recorded number of samples. -/
def axesMatch : List Int → List (Option (List ℚ)) → Bool
  | [], [] => true
  | c :: cs, some axis :: ds => decide (c = (axis.length : Int)) && axesMatch cs ds
  | _, _ => false

/-- A generator state with fully allocated, mutually consistent storage:
both bookkeeping arrays are allocated with one entry per independent
variable, and every axis's sample array is allocated with exactly the
recorded sample count. -/
def wellFormed (s : AerodynamicCoefficientGenerator) : Bool :=
  match s.numberOfPointsPerIndependentVariables_, s.dataPointsOfIndependentVariables_ with
  | some counts, some dataPts =>
    decide (0 ≤ s.numberOfIndependentVariables_) &&
    decide (counts.length = s.numberOfIndependentVariables_.toNat) &&
    decide (dataPts.length = s.numberOfIndependentVariables_.toNat) &&
    axesMatch counts dataPts
  | _, _ => false

/-- Unpacking of `wellFormed`. -/
theorem wellFormed_spec (s : AerodynamicCoefficientGenerator) (hw : wellFormed s = true) :
    ∃ counts dataPts,
      s.numberOfPointsPerIndependentVariables_ = some counts ∧
      s.dataPointsOfIndependentVariables_ = some dataPts ∧
      0 ≤ s.numberOfIndependentVariables_ ∧
      counts.length = s.numberOfIndependentVariables_.toNat ∧
      dataPts.length = s.numberOfIndependentVariables_.toNat ∧
      axesMatch counts dataPts = true := by
  unfold wellFormed at hw
  split at hw
  · rename_i counts dataPts hc hd
    simp only [Bool.and_eq_true, decide_eq_true_eq] at hw
    exact ⟨counts, dataPts, hc, hd, hw.1.1.1, hw.1.1.2, hw.1.2, hw.2⟩
  · cases hw

/-- In a consistent storage pair, every in-range axis slot holds an allocated
sample array whose length is the recorded count. -/
theorem axesMatch_lookup (cs : List Int) (ds : List (Option (List ℚ)))
    (hm : axesMatch cs ds = true) : ∀ k, k < ds.length →
      ∃ axis, ds.get? k = some (some axis) ∧ cs.get? k = some ((axis.length : Int)) := by
  induction cs generalizing ds with
  | nil =>
    cases ds with
    | nil => intro k hk; simp at hk
    | cons d ds => simp [axesMatch] at hm
  | cons c cs ih =>
    cases ds with
    | nil => simp [axesMatch] at hm
    | cons d ds =>
      cases d with
      | none => simp [axesMatch] at hm
      | some axis =>
        simp only [axesMatch, Bool.and_eq_true, decide_eq_true_eq] at hm
        obtain ⟨hcl, hrest⟩ := hm
        intro k hk
        cases k with
        | zero => exact ⟨axis, rfl, by simp [hcl]⟩
        | succ k =>
          simp only [List.length_cons] at hk
          obtain ⟨axis2, h1, h2⟩ := ih ds hrest k (by omega)
          exact ⟨axis2, by simpa using h1, by simpa using h2⟩

/-- The generic read accessor succeeds exactly when the axis index and the
sample index are in range. -/
theorem getIndependentVariablePoint_isSome (s : AerodynamicCoefficientGenerator)
    (hw : wellFormed s = true) (iv i : Int) :
    (getIndependentVariablePoint s iv i).isSome = true ↔
      (0 ≤ iv ∧ iv < s.numberOfIndependentVariables_ ∧ 0 ≤ i ∧
       ∃ c, getNumberOfValuesOfIndependentVariable s iv = some c ∧ i < c) := by
  obtain ⟨counts, dataPts, hc, hd, hn, hlc, hld, hm⟩ := wellFormed_spec s hw
  by_cases hin : 0 ≤ iv ∧ iv.toNat < dataPts.length
  · obtain ⟨h0, hlt⟩ := hin
    obtain ⟨axis, hget, hcnt⟩ := axesMatch_lookup counts dataPts hm iv.toNat hlt
    have hL : getIndependentVariablePoint s iv i = intGet axis i := by
      simp only [getIndependentVariablePoint, hd, intGet_eq_get? dataPts iv h0, hget]
    have hR : getNumberOfValuesOfIndependentVariable s iv = some ((axis.length : Int)) := by
      simp only [getNumberOfValuesOfIndependentVariable, hc, intGet_eq_get? counts iv h0, hcnt]
    rw [hL, intGet_isSome]
    constructor
    · rintro ⟨hi0, hilt⟩
      exact ⟨h0, by omega, hi0, (axis.length : Int), hR, by omega⟩
    · rintro ⟨-, -, hi0, c, hceq, hic⟩
      rw [hR] at hceq
      injection hceq with hceq
      subst hceq
      exact ⟨hi0, by omega⟩
  · have hL : getIndependentVariablePoint s iv i = none := by
      simp only [getIndependentVariablePoint, hd, intGet_eq_none dataPts iv hin]
    rw [hL]
    constructor
    · intro h; simp at h
    · rintro ⟨h0, hltn, -, -⟩
      exact absurd (⟨h0, by omega⟩ : 0 ≤ iv ∧ iv.toNat < dataPts.length) hin

/-- The Mach-point setter succeeds exactly when the axis it actually writes
(the angle-of-attack axis, per the source) and the sample index are in
range. -/
theorem setMachPoint_isSome (s : AerodynamicCoefficientGenerator)
    (hw : wellFormed s = true) (i : Int) (v : ℚ) :
    (setMachPoint s i v).isSome = true ↔
      (0 ≤ s.angleOfAttackIndex_ ∧
       s.angleOfAttackIndex_ < s.numberOfIndependentVariables_ ∧ 0 ≤ i ∧
       ∃ c, getNumberOfValuesOfIndependentVariable s s.angleOfAttackIndex_ = some c ∧
         i < c) := by
  obtain ⟨counts, dataPts, hc, hd, hn, hlc, hld, hm⟩ := wellFormed_spec s hw
  by_cases hin : 0 ≤ s.angleOfAttackIndex_ ∧ s.angleOfAttackIndex_.toNat < dataPts.length
  · obtain ⟨h0, hlt⟩ := hin
    obtain ⟨axis, hget, hcnt⟩ := axesMatch_lookup counts dataPts hm s.angleOfAttackIndex_.toNat hlt
    have hR : getNumberOfValuesOfIndependentVariable s s.angleOfAttackIndex_ =
        some ((axis.length : Int)) := by
      simp only [getNumberOfValuesOfIndependentVariable, hc,
        intGet_eq_get? counts s.angleOfAttackIndex_ h0, hcnt]
    have hL : (setMachPoint s i v).isSome = (intSet axis i v).isSome := by
      simp only [setMachPoint, hd, intGet_eq_get? dataPts s.angleOfAttackIndex_ h0, hget]
      cases intSet axis i v <;> rfl
    rw [hL, intSet_isSome]
    constructor
    · rintro ⟨hi0, hilt⟩
      exact ⟨h0, by omega, hi0, (axis.length : Int), hR, by omega⟩
    · rintro ⟨-, -, hi0, c, hceq, hic⟩
      rw [hR] at hceq
      injection hceq with hceq
      subst hceq
      exact ⟨hi0, by omega⟩
  · have hL : setMachPoint s i v = none := by
      simp only [setMachPoint, hd, intGet_eq_none dataPts s.angleOfAttackIndex_ hin]
    rw [hL]
    constructor
    · intro h; simp at h
    · rintro ⟨h0, hltn, -, -⟩
      exact absurd
        (⟨h0, by omega⟩ : 0 ≤ s.angleOfAttackIndex_ ∧ s.angleOfAttackIndex_.toNat < dataPts.length)
        hin

/-- Claim C5: on a well-formed generator the embedded accessors are total
with a guarded error branch: reading with `getIndependentVariablePoint` and
writing with `setMachPoint` succeed (return `some`) exactly when the accessed
axis index and the sample index are nonnegative and below the corresponding
counts, and fail with `none` instead of touching adjacent storage otherwise.
For `setMachPoint` the accessed axis is the angle-of-attack axis, which the
source body indexes. -/
theorem accessors_guarded (s : AerodynamicCoefficientGenerator)
    (hw : wellFormed s = true) (iv i : Int) (v : ℚ) :
    ((getIndependentVariablePoint s iv i).isSome = true ↔
      (0 ≤ iv ∧ iv < s.numberOfIndependentVariables_ ∧ 0 ≤ i ∧
       ∃ c, getNumberOfValuesOfIndependentVariable s iv = some c ∧ i < c)) ∧
    ((setMachPoint s i v).isSome = true ↔
      (0 ≤ s.angleOfAttackIndex_ ∧
       s.angleOfAttackIndex_ < s.numberOfIndependentVariables_ ∧ 0 ≤ i ∧
       ∃ c, getNumberOfValuesOfIndependentVariable s s.angleOfAttackIndex_ = some c ∧
         i < c)) :=
  ⟨getIndependentVariablePoint_isSome s hw iv i, setMachPoint_isSome s hw i v⟩

/-- Witness for claim C5 on `twoAxisExample` at axis 0, sample index 0. -/
theorem accessors_guarded_witness :
    ((getIndependentVariablePoint twoAxisExample 0 0).isSome = true ↔
      (0 ≤ (0 : Int) ∧ (0 : Int) < twoAxisExample.numberOfIndependentVariables_ ∧
       0 ≤ (0 : Int) ∧
       ∃ c, getNumberOfValuesOfIndependentVariable twoAxisExample 0 = some c ∧ 0 < c)) ∧
    ((setMachPoint twoAxisExample 0 3).isSome = true ↔
      (0 ≤ twoAxisExample.angleOfAttackIndex_ ∧
       twoAxisExample.angleOfAttackIndex_ < twoAxisExample.numberOfIndependentVariables_ ∧
       0 ≤ (0 : Int) ∧
       ∃ c, getNumberOfValuesOfIndependentVariable twoAxisExample
         twoAxisExample.angleOfAttackIndex_ = some c ∧ 0 < c)) :=
  accessors_guarded twoAxisExample (by decide) 0 0 3

end tudat
